import Mathlib

/-!
Verification of the jsondb.cloud MCP tool bridge (`@jsondb-cloud/mcp`).

Shallow embedding of the bridge's pure control paths:
* the response formatters `success` / `error` (src/tools/_helpers.ts),
* the per-handler status-code decision tables (src/tools/documents.ts,
  src/tools/webhooks.ts, src/tools/collections.ts, the vector tools),
* the REST-client request construction `apiFetch` / `webhookFetch`,
* the filter compiler `buildFilterObject` (src/tools/collections.ts),
* the startup credential check in `main` (src/index.ts).

JSON values are modelled by the inductive `Json`.  The source serializes
content blocks with `JSON.stringify` and consumers decode them back; since
serialization is injective we keep the decoded `Json` value in the content
block instead of its string image.  A backing HTTP/SDK call is external
I/O, so each handler is embedded as a total function of the call's
outcome: `Except ThrownErr Json`, where `ThrownErr` carries the two fields
(`status`, `message`) the catch blocks read off an arbitrary thrown value
(absent fields are `none`, mirroring `undefined`).  JavaScript `x || d`
on strings is `jsOr`, and truthiness of an optional string is `jsTruthy`.
-/

namespace JsondbMcp

/-- JSON values (numbers restricted to integers; no claim inspects
non-integral numerics). -/
inductive Json where
  | null
  | bool (b : Bool)
  | num (n : Int)
  | str (s : String)
  | arr (elems : List Json)
  | obj (fields : List (String × Json))

/-- JavaScript object member read `m[k]`: the value at the first matching
key, `none` for `undefined`. -/
def jsLookup : List (String × Json) → String → Option Json
  | [], _ => none
  | p :: rest, k => if p.1 = k then some p.2 else jsLookup rest k

/-- JavaScript object member assignment `m[k] = v`: overwrite the value in
place when the key exists, else append the new member. -/
def jsSet : List (String × Json) → String → Json → List (String × Json)
  | [], k, v => [(k, v)]
  | p :: rest, k, v => if p.1 = k then (k, v) :: rest else p :: jsSet rest k v

/-- The keys of a JavaScript object, in member order. -/
def jsKeys (m : List (String × Json)) : List String := m.map Prod.fst

/-- One MCP content block; `text` holds the decoded JSON of the serialized
text payload. -/
structure ContentBlock where
  type : String
  text : Json

/-- The value a handler returns across the tool boundary.  The source omits
`isError` on success responses; an absent flag is falsy, modelled `false`. -/
structure ToolResponse where
  content : List ContentBlock
  isError : Bool

/-- src/tools/_helpers.ts `success`: one text block with the serialized
data, no error flag. -/
def success (data : Json) : ToolResponse :=
  { content := [{ type := "text", text := data }], isError := false }

/-- src/tools/_helpers.ts `error`: one text block with the serialized
structured payload, error flag set. -/
def error (code message suggestion : String) : ToolResponse :=
  { content := [{ type := "text",
                  text := Json.obj [("error", Json.obj
                    [("code", Json.str code),
                     ("message", Json.str message),
                     ("suggestion", Json.str suggestion)])] }],
    isError := true }

/-- The two fields every catch block reads off the caught value after the
`as \x7b message?: string; status?: number \x7d` cast. -/
structure ThrownErr where
  status : Option Nat := none
  message : Option String := none

/-- Outcome of a backing SDK or fetch call: resolved JSON or a thrown value. -/
abbrev Outcome := Except ThrownErr Json

/-- JavaScript `a || d` on an optional string (`undefined` and `""` are falsy). -/
def jsOr (a : Option String) (d : String) : String :=
  match a with
  | some s => if s = "" then d else s
  | none => d

/-- JavaScript truthiness of an optional string. -/
def jsTruthy : Option String → Bool
  | some s => s != ""
  | none => false

/-- `e.message || d` in the catch blocks. -/
def msgOr (e : ThrownErr) (d : String) : String := jsOr e.message d

/-- The process environment, read through `process.env.NAME`. -/
abbrev Env := String → Option String

/-- The credential/context triple `\x7b apiKey, project, baseUrl \x7d`. -/
structure Creds where
  apiKey : String
  project : String
  baseUrl : String

/-- `s.replace(/\x5c\x2f$/, "")`: drop one trailing slash when present
(expressed on the character list so that it evaluates by reduction). -/
def stripTrailingSlash (s : String) : String :=
  if s.data.getLast? = some (Char.ofNat 47) then String.mk s.data.dropLast else s

/-- src/tools/_helpers.ts `resolveEnv` (duplicated verbatim in
src/tools/webhooks.ts): re-reads the process environment on every call. -/
def resolveEnv (env : Env) : Creds :=
  { apiKey := jsOr (env "JSONDB_API_KEY") ""
    project := jsOr (env "JSONDB_PROJECT") (jsOr (env "JSONDB_NAMESPACE") "v1")
    baseUrl := stripTrailingSlash (jsOr (env "JSONDB_BASE_URL") "https://api.jsondb.cloud") }

/-- An outbound HTTP request as the REST client assembles it (`body = none`
means the `RequestInit` carries no body). -/
structure OutboundRequest where
  method : String
  url : String
  authHeader : String
  contentType : String
  body : Option Json

/-- Request construction of src/tools/_helpers.ts `apiFetch`: bearer and
JSON headers always; the body is serialized only when supplied and the
method is POST, PUT or PATCH. -/
def apiFetchRequest (url : String) (apiKey : String) (method : String)
    (body : Option Json) : OutboundRequest :=
  { method := method
    url := url
    authHeader := "Bearer " ++ apiKey
    contentType := "application/json"
    body := if body.isSome ∧ method ∈ (["POST", "PUT", "PATCH"] : List String)
            then body else none }

/-- Request construction of src/tools/webhooks.ts `webhookFetch`, a
textual duplicate of `apiFetch`. -/
def webhookFetchRequest (url : String) (apiKey : String) (method : String)
    (body : Option Json) : OutboundRequest :=
  { method := method
    url := url
    authHeader := "Bearer " ++ apiKey
    contentType := "application/json"
    body := if body.isSome ∧ method ∈ (["POST", "PUT", "PATCH"] : List String)
            then body else none }

/-- The `create_document` handler's response mapping (src/tools/documents.ts):
`success` on a resolved call, else the 409/413/400 decision table. -/
def create_document (collection : String) (outcome : Outcome) : ToolResponse :=
  match outcome with
  | .ok doc => success doc
  | .error e =>
    if e.status = some 409 then
      error "DOCUMENT_CONFLICT"
        ("A document with this ID already exists in collection '" ++ collection ++ "'.")
        "Use update_document to replace an existing document, or omit the 'id' parameter to auto-generate a unique ID."
    else if e.status = some 413 then
      error "DOCUMENT_TOO_LARGE"
        "The document exceeds the maximum allowed size."
        "Reduce the document size. Free plans allow up to 16 KB per document, Pro plans allow up to 1 MB."
    else if e.status = some 400 then
      error "VALIDATION_ERROR"
        (msgOr e ("The document failed schema validation for collection '" ++ collection ++ "'."))
        ("Use get_schema(\x7b collection: '" ++ collection ++ "' \x7d) to see the required schema, then adjust your document to match.")
    else
      error "CREATE_FAILED"
        (msgOr e "Failed to create document")
        ("Check that the collection name '" ++ collection ++ "' is valid and the data is a valid JSON object.")

/-- The `get_document` handler's response mapping (src/tools/documents.ts). -/
def get_document (collection id : String) (outcome : Outcome) : ToolResponse :=
  match outcome with
  | .ok doc => success doc
  | .error e =>
    if e.status = some 404 then
      error "DOCUMENT_NOT_FOUND"
        ("Document '" ++ id ++ "' not found in collection '" ++ collection ++ "'.")
        ("Use list_documents(\x7b collection: '" ++ collection ++ "' \x7d) to see available documents, or check that the ID is correct.")
    else
      error "GET_FAILED"
        (msgOr e "Failed to get document")
        ("Verify that the collection '" ++ collection ++ "' exists and the document ID '" ++ id ++ "' is correct.")

/-- The search body of `semantic_search`: `query` plus each optional
argument that is not `undefined`, assigned in source order. -/
def semantic_search_body (query : String) (limit threshold filter : Option Json) :
    List (String × Json) :=
  let b0 : List (String × Json) := [("query", Json.str query)]
  let b1 := match limit with | some v => jsSet b0 "limit" v | none => b0
  let b2 := match threshold with | some v => jsSet b1 "threshold" v | none => b1
  match filter with | some v => jsSet b2 "filter" v | none => b2

/-- The outbound request `semantic_search` issues: credentials re-resolved
from the environment at this invocation, POST to `.../_search`. -/
def semantic_search_request (env : Env) (collection query : String)
    (limit threshold filter : Option Json) : OutboundRequest :=
  let c := resolveEnv env
  apiFetchRequest (c.baseUrl ++ "/" ++ c.project ++ "/" ++ collection ++ "/_search")
    c.apiKey "POST" (some (Json.obj (semantic_search_body query limit threshold filter)))

/-- The `semantic_search` handler's response mapping (vector tools file). -/
def semantic_search (collection : String) (outcome : Outcome) : ToolResponse :=
  match outcome with
  | .ok data => success data
  | .error e =>
    if e.status = some 404 then
      error "COLLECTION_NOT_FOUND"
        ("Collection '" ++ collection ++ "' not found or has no embeddings.")
        "Ensure the collection exists and documents were stored with store_with_embedding. Use list_collections to see available collections."
    else if e.status = some 400 then
      error "INVALID_SEARCH"
        (msgOr e ("Invalid search request for collection '" ++ collection ++ "'."))
        "Check that the query is a non-empty string and threshold is between 0 and 1."
    else if e.status = some 403 then
      error "SEARCH_NOT_AVAILABLE"
        (msgOr e "Semantic search is not available on your current plan.")
        "Upgrade your plan at https://jsondb.cloud/dashboard/billing to enable vector search."
    else
      error "SEARCH_FAILED"
        (msgOr e ("Failed to search collection '" ++ collection ++ "'."))
        "Verify the collection name and that documents have been stored with embeddings."

/-- The outbound request `store_with_embedding` issues: the caller data
spread together with the `$embed` marker; a truthy `id` selects PUT to the
document path, otherwise POST to the collection path. -/
def store_with_embedding_request (env : Env) (collection : String)
    (data : List (String × Json)) (embed_field : String) (id : Option String) :
    OutboundRequest :=
  let c := resolveEnv env
  let payload := Json.obj (jsSet data "$embed" (Json.str embed_field))
  if jsTruthy id then
    apiFetchRequest (c.baseUrl ++ "/" ++ c.project ++ "/" ++ collection ++ "/" ++ id.getD "")
      c.apiKey "PUT" (some payload)
  else
    apiFetchRequest (c.baseUrl ++ "/" ++ c.project ++ "/" ++ collection)
      c.apiKey "POST" (some payload)

/-- The `store_with_embedding` handler's response mapping (vector tools file). -/
def store_with_embedding (collection embed_field : String) (outcome : Outcome) :
    ToolResponse :=
  match outcome with
  | .ok result => success result
  | .error e =>
    if e.status = some 400 then
      error "VALIDATION_ERROR"
        (msgOr e ("The document failed validation for collection '" ++ collection ++ "'."))
        ("Ensure the embed_field '" ++ embed_field ++ "' exists in your data and contains text content suitable for embedding.")
    else if e.status = some 413 then
      error "DOCUMENT_TOO_LARGE"
        "The document exceeds the maximum allowed size."
        "Reduce the document size. Free plans allow up to 16 KB per document, Pro plans allow up to 1 MB."
    else if e.status = some 403 then
      error "EMBEDDING_NOT_AVAILABLE"
        (msgOr e "Embedding generation is not available on your current plan.")
        "Upgrade your plan at https://jsondb.cloud/dashboard/billing to enable automatic embeddings."
    else
      error "STORE_EMBEDDING_FAILED"
        (msgOr e ("Failed to store document with embedding in collection '" ++ collection ++ "'."))
        "Check that the collection name is valid, the data is a valid JSON object, and the embed_field references an existing text field."

/-- The `create_webhook` handler's response mapping (src/tools/webhooks.ts). -/
def create_webhook (collection : String) (outcome : Outcome) : ToolResponse :=
  match outcome with
  | .ok data => success data
  | .error e =>
    if e.status = some 403 then
      error "WEBHOOK_LIMIT"
        (msgOr e "Webhook limit reached for this collection or plan.")
        "Free plans allow 3 total webhooks (1 per collection). Pro plans allow 50 total (10 per collection). Delete unused webhooks or upgrade."
    else
      error "CREATE_WEBHOOK_FAILED"
        (msgOr e ("Failed to create webhook for collection '" ++ collection ++ "'."))
        "Verify the URL is reachable HTTPS and the event names are valid."

/-- The PUT body of `update_webhook`: starts empty, then each argument that
is not `undefined` is assigned, in source order (url, events, description,
status). -/
def update_webhook_fields (url : Option String) (events : Option (List String))
    (description status : Option String) : List (String × Json) :=
  let b0 : List (String × Json) := []
  let b1 := match url with | some u => jsSet b0 "url" (Json.str u) | none => b0
  let b2 := match events with
            | some es => jsSet b1 "events" (Json.arr (es.map Json.str))
            | none => b1
  let b3 := match description with | some d => jsSet b2 "description" (Json.str d) | none => b2
  match status with | some s => jsSet b3 "status" (Json.str s) | none => b3

/-- The outbound request `update_webhook` issues: always a PUT to the
webhook path, body the conditionally assembled field object. -/
def update_webhook_request (env : Env) (collection webhookId : String)
    (url : Option String) (events : Option (List String))
    (description status : Option String) : OutboundRequest :=
  let c := resolveEnv env
  webhookFetchRequest
    (c.baseUrl ++ "/" ++ c.project ++ "/" ++ collection ++ "/_webhooks/" ++ webhookId)
    c.apiKey "PUT" (some (Json.obj (update_webhook_fields url events description status)))

/-- The `update_webhook` handler's response mapping (src/tools/webhooks.ts). -/
def update_webhook (collection webhookId : String) (outcome : Outcome) : ToolResponse :=
  match outcome with
  | .ok data => success data
  | .error e =>
    if e.status = some 404 then
      error "WEBHOOK_NOT_FOUND"
        ("Webhook '" ++ webhookId ++ "' not found in collection '" ++ collection ++ "'.")
        ("Use list_webhooks(\x7b collection: '" ++ collection ++ "' \x7d) to see available webhooks.")
    else
      error "UPDATE_WEBHOOK_FAILED"
        (msgOr e ("Failed to update webhook '" ++ webhookId ++ "'."))
        "Verify the collection name and webhook ID are correct."

/-- `Array.isArray(data) ? data : (data.data ?? [])` on the 2xx export
payload.  Reading `.data` off JSON `null` throws a TypeError (caught by the
handler's catch block); off a primitive it is `undefined`, so the nullish
coalescing yields `[]`, as it does for an object whose `data` member is
absent or `null`. -/
def exportDocuments : Json → Except String Json
  | .arr l => .ok (.arr l)
  | .null => .error "Cannot read properties of null (reading 'data')"
  | .obj fs => .ok (match jsLookup fs "data" with
      | none => .arr []
      | some .null => .arr []
      | some v => v)
  | _ => .ok (.arr [])

/-- JavaScript `.length` of a JSON value: defined for arrays and strings,
`undefined` otherwise. -/
def jsLength : Json → Option Nat
  | .arr l => some l.length
  | .str s => some s.length
  | _ => none

/-- The export success value `\x7b collection, count: documents.length,
documents \x7d`; `JSON.stringify` drops a member whose value is
`undefined`. -/
def exportResult (collection : String) (documents : Json) : Json :=
  Json.obj ([("collection", Json.str collection)] ++
    (match jsLength documents with
     | some n => [("count", Json.num n)]
     | none => []) ++
    [("documents", documents)])

/-- The catch block of `export_collection` (src/tools/collections.ts). -/
def exportCatch (collection : String) (e : ThrownErr) : ToolResponse :=
  if e.status = some 403 then
    error "EXPORT_LIMIT_EXCEEDED"
      "Export limit exceeded for your plan."
      "Free plans support up to 1,000 documents per export. Upgrade to Pro for up to 100,000."
  else
    error "EXPORT_FAILED"
      (msgOr e ("Failed to export collection '" ++ collection ++ "'."))
      "Verify the collection name is correct. Use list_collections to see available collections."

/-- The `export_collection` handler from the 2xx payload (or thrown
failure) on: normalization plus response mapping.  A TypeError thrown while
normalizing lands in the same catch block, with no `status` field. -/
def export_collection (collection : String) (outcome : Outcome) : ToolResponse :=
  match outcome with
  | .ok payload =>
    match exportDocuments payload with
    | .ok documents => success (exportResult collection documents)
    | .error m => exportCatch collection { status := none, message := some m }
  | .error e => exportCatch collection e

/-- One `\x7b field, operator, value \x7d` filter triple. -/
structure FilterSpec where
  field : String
  operator : String
  value : Json

/-- The `opMap` table of `buildFilterObject` (src/tools/collections.ts). -/
def opMap : List (String × String) :=
  [("eq", "$eq"), ("neq", "$neq"), ("gt", "$gt"), ("gte", "$gte"),
   ("lt", "$lt"), ("lte", "$lte"), ("contains", "$contains"),
   ("in", "$in"), ("exists", "$exists")]

/-- The loop body of `buildFilterObject`: equality passes the raw value,
a mapped operator wraps it in a single-key object, an unknown operator
falls back to the raw value. -/
def compileFilterValue (f : FilterSpec) : Json :=
  if f.operator = "eq" then f.value
  else match List.lookup f.operator opMap with
    | some sdkOp => Json.obj [(sdkOp, f.value)]
    | none => f.value

/-- `buildFilterObject` (src/tools/collections.ts): sequential object
assignment over the filter list, starting from the empty object. -/
def buildFilterObject (filters : List FilterSpec) : List (String × Json) :=
  filters.foldl (fun acc f => jsSet acc f.field (compileFilterValue f)) []

/-- Transport selection made once at startup (src/index.ts). -/
inductive TransportChoice where
  | stdio
  | httpMode (port : String) (host : String)

/-- What a successful startup has constructed: the SDK client's fixed
credential triple and the chosen transport. -/
structure ServerStartup where
  db : Creds
  transport : TransportChoice

/-- How `main` ends: `process.exit` with a code and the message printed, or
a running server. -/
inductive StartupOutcome where
  | exited (code : Nat) (message : String)
  | started (s : ServerStartup)

/-- The directive message printed when `JSONDB_API_KEY` is missing. -/
def apiKeyRequiredMessage : String :=
  "Error: JSONDB_API_KEY environment variable is required.\n\nSet it in your MCP server configuration:\n  \"env\": \x7b \"JSONDB_API_KEY\": \"jdb_sk_live_...\" \x7d\n\nGet an API key from your jsondb.cloud dashboard."

/-- `main` of src/index.ts up to transport attachment: a falsy
`JSONDB_API_KEY` exits with status 1 before any client, server or listener
is created; otherwise the SDK client is built once from the startup
environment and the transport is selected. -/
def mainStartup (env : Env) : StartupOutcome :=
  let apiKey := env "JSONDB_API_KEY"
  if jsTruthy apiKey = false then
    .exited 1 apiKeyRequiredMessage
  else
    let db : Creds :=
      { apiKey := apiKey.getD ""
        project := jsOr (env "JSONDB_PROJECT") (jsOr (env "JSONDB_NAMESPACE") "v1")
        baseUrl := jsOr (env "JSONDB_BASE_URL") "https://api.jsondb.cloud" }
    let transportType := jsOr (env "JSONDB_MCP_TRANSPORT") "stdio"
    if transportType = "http" then
      .started { db := db
                 transport := .httpMode (jsOr (env "JSONDB_MCP_PORT") "3100")
                                        (jsOr (env "JSONDB_MCP_HOST") "127.0.0.1") }
    else
      .started { db := db, transport := .stdio }

/-- Decode the `error.code` field out of a ToolResponse's single content
block, `none` when the response is not of the structured error shape. -/
def errCode (r : ToolResponse) : Option String :=
  match r.content with
  | [b] =>
    match b.text with
    | .obj fs =>
      match jsLookup fs "error" with
      | some (.obj efs) =>
        match jsLookup efs "code" with
        | some (.str c) => some c
        | _ => none
      | _ => none
    | _ => none
  | _ => none

/-! ### Object-assignment lemmas -/

theorem jsLookup_jsSet (m : List (String × Json)) (k' : String) (v : Json) (k : String) :
    jsLookup (jsSet m k' v) k = if k = k' then some v else jsLookup m k := by
  induction m with
  | nil =>
    simp only [jsSet, jsLookup]
    by_cases h : k' = k
    · rw [if_pos h, if_pos h.symm]
    · rw [if_neg h, if_neg fun e => h e.symm]
  | cons p rest ih =>
    by_cases hp : p.1 = k'
    · rw [jsSet, if_pos hp]
      by_cases h : k = k'
      · simp [jsLookup, h]
      · have : ¬(k' = k) := fun e => h e.symm
        simp [jsLookup, this, hp, h]
    · rw [jsSet, if_neg hp]
      by_cases hk : p.1 = k
      · have : k ≠ k' := fun e => hp (e ▸ hk)
        simp [jsLookup, hk, this]
      · simp [jsLookup, hk, ih]

theorem jsKeys_jsSet (m : List (String × Json)) (k : String) (v : Json) :
    jsKeys (jsSet m k v) = if k ∈ jsKeys m then jsKeys m else jsKeys m ++ [k] := by
  induction m with
  | nil => simp [jsSet, jsKeys]
  | cons p rest ih =>
    by_cases hp : p.1 = k
    · rw [jsSet, if_pos hp]
      simp [jsKeys, hp]
    · rw [jsSet, if_neg hp]
      have hne : ¬(k = p.1) := fun e => hp e.symm
      simp only [jsKeys, List.map_cons] at ih ⊢
      rw [ih]
      by_cases hmem : k ∈ List.map Prod.fst rest
      · rw [if_pos hmem, if_pos (List.mem_cons_of_mem _ hmem)]
      · rw [if_neg hmem, if_neg (by simp [hne, hmem])]
        simp

theorem mem_jsKeys_jsSet (m : List (String × Json)) (k : String) (v : Json) (a : String) :
    a ∈ jsKeys (jsSet m k v) ↔ a ∈ jsKeys m ∨ a = k := by
  rw [jsKeys_jsSet]
  by_cases h : k ∈ jsKeys m
  · rw [if_pos h]
    constructor
    · exact Or.inl
    · rintro (ha | rfl)
      · exact ha
      · exact h
  · rw [if_neg h]; simp

theorem nodup_jsKeys_jsSet (m : List (String × Json)) (k : String) (v : Json)
    (h : (jsKeys m).Nodup) : (jsKeys (jsSet m k v)).Nodup := by
  rw [jsKeys_jsSet]
  by_cases hm : k ∈ jsKeys m
  · rwa [if_pos hm]
  · rw [if_neg hm, List.nodup_append]
    refine ⟨h, List.nodup_singleton _, ?_⟩
    intro a ha hak
    rw [List.mem_singleton] at hak
    exact hm (hak ▸ ha)

/-! ### Filter-compiler lemmas -/

/-- Reference compilation of one filter triple, following the words of the
spec: equality keeps the raw value, an operator of the fixed non-eq set
wraps the value under the key `"$" + operator`, anything else falls back
to the raw value. -/
def specFilterValue (f : FilterSpec) : Json :=
  if f.operator = "eq" then f.value
  else if f.operator ∈ (["neq", "gt", "gte", "lt", "lte", "contains", "in", "exists"] :
      List String) then
    Json.obj [("$" ++ f.operator, f.value)]
  else f.value

/-- Reference compiled mapping, following the words of the spec: the value
for a field is the reference compilation of the last filter naming that
field (later entries win), and a field no filter names is absent. -/
def specFilterLookup (filters : List FilterSpec) (k : String) : Option Json :=
  (filters.reverse.find? (fun f => f.field == k)).map specFilterValue

theorem compileFilterValue_eq_spec (f : FilterSpec) :
    compileFilterValue f = specFilterValue f := by
  obtain ⟨fd, op, v⟩ := f
  by_cases h1 : op = "eq"
  · subst h1; rfl
  · by_cases h2 : op ∈ (["neq", "gt", "gte", "lt", "lte", "contains", "in", "exists"] :
        List String)
    · simp only [List.mem_cons, List.not_mem_nil, or_false] at h2
      rcases h2 with rfl | rfl | rfl | rfl | rfl | rfl | rfl | rfl <;> rfl
    · simp only [List.mem_cons, List.not_mem_nil, or_false, not_or] at h2
      obtain ⟨n1, n2, n3, n4, n5, n6, n7, n8⟩ := h2
      simp [compileFilterValue, specFilterValue, opMap, List.lookup,
            beq_eq_false_iff_ne.mpr h1, beq_eq_false_iff_ne.mpr n1,
            beq_eq_false_iff_ne.mpr n2, beq_eq_false_iff_ne.mpr n3,
            beq_eq_false_iff_ne.mpr n4, beq_eq_false_iff_ne.mpr n5,
            beq_eq_false_iff_ne.mpr n6, beq_eq_false_iff_ne.mpr n7,
            beq_eq_false_iff_ne.mpr n8, h1, n1, n2, n3, n4, n5, n6, n7, n8]

theorem buildFilter_go_lookup (fs : List FilterSpec) (acc : List (String × Json))
    (k : String) :
    jsLookup (fs.foldl (fun a f => jsSet a f.field (compileFilterValue f)) acc) k =
      ((fs.reverse.find? (fun f => f.field == k)).map compileFilterValue).or
        (jsLookup acc k) := by
  induction fs generalizing acc with
  | nil => simp [Option.or]
  | cons f t ih =>
    simp only [List.foldl_cons, List.reverse_cons, List.find?_append]
    rw [ih]
    cases ht : t.reverse.find? (fun f => f.field == k) with
    | some g => simp [Option.or]
    | none =>
      simp only [Option.map_none', Option.none_or]
      rw [jsLookup_jsSet]
      by_cases hk : k = f.field
      · have : (f.field == k) = true := beq_iff_eq.mpr hk.symm
        simp [List.find?, this, hk, Option.or]
      · have : (f.field == k) = false := beq_false_of_ne fun e => hk e.symm
        simp [List.find?, this, hk, Option.or]

theorem buildFilter_go_mem (fs : List FilterSpec) (acc : List (String × Json))
    (a : String) :
    a ∈ jsKeys (fs.foldl (fun m f => jsSet m f.field (compileFilterValue f)) acc) ↔
      a ∈ jsKeys acc ∨ ∃ f ∈ fs, f.field = a := by
  induction fs generalizing acc with
  | nil => simp
  | cons f t ih =>
    simp only [List.foldl_cons]
    rw [ih, mem_jsKeys_jsSet]
    constructor
    · rintro ((ha | ha) | ⟨g, hg, rfl⟩)
      · exact Or.inl ha
      · exact Or.inr ⟨f, List.mem_cons_self _ _, ha.symm⟩
      · exact Or.inr ⟨g, List.mem_cons_of_mem _ hg, rfl⟩
    · rintro (ha | ⟨g, hg, rfl⟩)
      · exact Or.inl (Or.inl ha)
      · rcases List.mem_cons.mp hg with rfl | hg
        · exact Or.inl (Or.inr rfl)
        · exact Or.inr ⟨g, hg, rfl⟩

theorem buildFilter_go_nodup (fs : List FilterSpec) (acc : List (String × Json))
    (h : (jsKeys acc).Nodup) :
    (jsKeys (fs.foldl (fun m f => jsSet m f.field (compileFilterValue f)) acc)).Nodup := by
  induction fs generalizing acc with
  | nil => exact h
  | cons f t ih => exact ih _ (nodup_jsKeys_jsSet _ _ _ h)

/-! ### Claim theorems -/

/-- C4: the filter compiler `buildFilterObject` agrees with the spec's
reference compilation on every input list: the compiled mapping's value at
each field is the reference value of the last filter naming that field
(`eq` and unrecognized operators pass the raw value, the fixed non-eq set
wraps it under `"$" + operator`; later entries on the same field win), the
empty list compiles to the empty mapping, and the result holds one entry
per distinct input field. -/
theorem buildFilterObject_matches_spec :
    (∀ (filters : List FilterSpec) (k : String),
        jsLookup (buildFilterObject filters) k = specFilterLookup filters k) ∧
    buildFilterObject [] = [] ∧
    (∀ filters : List FilterSpec, (jsKeys (buildFilterObject filters)).Nodup) ∧
    (∀ (filters : List FilterSpec) (k : String),
        k ∈ jsKeys (buildFilterObject filters) ↔ ∃ f ∈ filters, f.field = k) := by
  refine ⟨?_, rfl, ?_, ?_⟩
  · intro filters k
    rw [buildFilterObject, buildFilter_go_lookup]
    rw [specFilterLookup]
    cases h : filters.reverse.find? (fun f => f.field == k) with
    | none => simp [Option.or, jsLookup]
    | some g => simp [Option.or, compileFilterValue_eq_spec]
  · intro filters
    exact buildFilter_go_nodup _ _ (by simp [jsKeys])
  · intro filters k
    rw [buildFilterObject, buildFilter_go_mem]
    simp [jsKeys]

/-- C1: each modelled handler's status-code decision table maps a failing
backing call to an error-flagged response whose decoded `error.code` is the
table's code; in particular create_document 409 → DOCUMENT_CONFLICT,
413 → DOCUMENT_TOO_LARGE, 400 → VALIDATION_ERROR; get_document 404 →
DOCUMENT_NOT_FOUND; semantic_search 404 → COLLECTION_NOT_FOUND, 400 →
INVALID_SEARCH, 403 → SEARCH_NOT_AVAILABLE; store_with_embedding 400 →
VALIDATION_ERROR, 413 → DOCUMENT_TOO_LARGE, 403 → EMBEDDING_NOT_AVAILABLE;
create_webhook 403 → WEBHOOK_LIMIT; update_webhook 404 → WEBHOOK_NOT_FOUND;
export_collection 403 → EXPORT_LIMIT_EXCEEDED. -/
theorem error_table_codes :
    (∀ (c : String) (m : Option String),
        (create_document c (.error ⟨some 409, m⟩)).isError = true ∧
        errCode (create_document c (.error ⟨some 409, m⟩)) = some "DOCUMENT_CONFLICT") ∧
    (∀ (c : String) (m : Option String),
        (create_document c (.error ⟨some 413, m⟩)).isError = true ∧
        errCode (create_document c (.error ⟨some 413, m⟩)) = some "DOCUMENT_TOO_LARGE") ∧
    (∀ (c : String) (m : Option String),
        (create_document c (.error ⟨some 400, m⟩)).isError = true ∧
        errCode (create_document c (.error ⟨some 400, m⟩)) = some "VALIDATION_ERROR") ∧
    (∀ (c i : String) (m : Option String),
        (get_document c i (.error ⟨some 404, m⟩)).isError = true ∧
        errCode (get_document c i (.error ⟨some 404, m⟩)) = some "DOCUMENT_NOT_FOUND") ∧
    (∀ (c : String) (m : Option String),
        (semantic_search c (.error ⟨some 404, m⟩)).isError = true ∧
        errCode (semantic_search c (.error ⟨some 404, m⟩)) = some "COLLECTION_NOT_FOUND") ∧
    (∀ (c : String) (m : Option String),
        (semantic_search c (.error ⟨some 400, m⟩)).isError = true ∧
        errCode (semantic_search c (.error ⟨some 400, m⟩)) = some "INVALID_SEARCH") ∧
    (∀ (c : String) (m : Option String),
        (semantic_search c (.error ⟨some 403, m⟩)).isError = true ∧
        errCode (semantic_search c (.error ⟨some 403, m⟩)) = some "SEARCH_NOT_AVAILABLE") ∧
    (∀ (c ef : String) (m : Option String),
        (store_with_embedding c ef (.error ⟨some 400, m⟩)).isError = true ∧
        errCode (store_with_embedding c ef (.error ⟨some 400, m⟩)) =
          some "VALIDATION_ERROR") ∧
    (∀ (c ef : String) (m : Option String),
        (store_with_embedding c ef (.error ⟨some 413, m⟩)).isError = true ∧
        errCode (store_with_embedding c ef (.error ⟨some 413, m⟩)) =
          some "DOCUMENT_TOO_LARGE") ∧
    (∀ (c ef : String) (m : Option String),
        (store_with_embedding c ef (.error ⟨some 403, m⟩)).isError = true ∧
        errCode (store_with_embedding c ef (.error ⟨some 403, m⟩)) =
          some "EMBEDDING_NOT_AVAILABLE") ∧
    (∀ (c : String) (m : Option String),
        (create_webhook c (.error ⟨some 403, m⟩)).isError = true ∧
        errCode (create_webhook c (.error ⟨some 403, m⟩)) = some "WEBHOOK_LIMIT") ∧
    (∀ (c w : String) (m : Option String),
        (update_webhook c w (.error ⟨some 404, m⟩)).isError = true ∧
        errCode (update_webhook c w (.error ⟨some 404, m⟩)) = some "WEBHOOK_NOT_FOUND") ∧
    (∀ (c : String) (m : Option String),
        (export_collection c (.error ⟨some 403, m⟩)).isError = true ∧
        errCode (export_collection c (.error ⟨some 403, m⟩)) =
          some "EXPORT_LIMIT_EXCEEDED") := by
  refine ⟨?_, ?_, ?_, ?_, ?_, ?_, ?_, ?_, ?_, ?_, ?_, ?_, ?_⟩ <;>
    intros <;> exact ⟨rfl, rfl⟩

/-- C2: `success` and `error` each produce exactly one content block;
`error` responses carry the structured code/message/suggestion payload and
set the error flag, `success` responses leave it unset; and every modelled
handler's response is in the image of one of the two formatters. -/
theorem response_shape_invariant :
    (∀ d : Json, (success d).content.length = 1 ∧ (success d).isError = false) ∧
    (∀ code message suggestion : String,
        (error code message suggestion).content.length = 1 ∧
        (error code message suggestion).isError = true ∧
        (error code message suggestion).content =
          [⟨"text", Json.obj [("error", Json.obj
              [("code", Json.str code), ("message", Json.str message),
               ("suggestion", Json.str suggestion)])]⟩]) ∧
    (∀ (c : String) (o : Outcome),
        (∃ d, create_document c o = success d) ∨
        ∃ a m s, create_document c o = error a m s) ∧
    (∀ (c i : String) (o : Outcome),
        (∃ d, get_document c i o = success d) ∨
        ∃ a m s, get_document c i o = error a m s) ∧
    (∀ (c : String) (o : Outcome),
        (∃ d, semantic_search c o = success d) ∨
        ∃ a m s, semantic_search c o = error a m s) ∧
    (∀ (c ef : String) (o : Outcome),
        (∃ d, store_with_embedding c ef o = success d) ∨
        ∃ a m s, store_with_embedding c ef o = error a m s) ∧
    (∀ (c : String) (o : Outcome),
        (∃ d, create_webhook c o = success d) ∨
        ∃ a m s, create_webhook c o = error a m s) ∧
    (∀ (c w : String) (o : Outcome),
        (∃ d, update_webhook c w o = success d) ∨
        ∃ a m s, update_webhook c w o = error a m s) ∧
    (∀ (c : String) (o : Outcome),
        (∃ d, export_collection c o = success d) ∨
        ∃ a m s, export_collection c o = error a m s) := by
  refine ⟨fun d => ⟨rfl, rfl⟩, fun a b c => ⟨rfl, rfl, rfl⟩, ?_, ?_, ?_, ?_, ?_, ?_, ?_⟩
  · intro c o
    cases o with
    | ok d => exact Or.inl ⟨d, rfl⟩
    | error e =>
      simp only [create_document]
      split_ifs <;> exact Or.inr ⟨_, _, _, rfl⟩
  · intro c i o
    cases o with
    | ok d => exact Or.inl ⟨d, rfl⟩
    | error e =>
      simp only [get_document]
      split_ifs <;> exact Or.inr ⟨_, _, _, rfl⟩
  · intro c o
    cases o with
    | ok d => exact Or.inl ⟨d, rfl⟩
    | error e =>
      simp only [semantic_search]
      split_ifs <;> exact Or.inr ⟨_, _, _, rfl⟩
  · intro c ef o
    cases o with
    | ok d => exact Or.inl ⟨d, rfl⟩
    | error e =>
      simp only [store_with_embedding]
      split_ifs <;> exact Or.inr ⟨_, _, _, rfl⟩
  · intro c o
    cases o with
    | ok d => exact Or.inl ⟨d, rfl⟩
    | error e =>
      simp only [create_webhook]
      split_ifs <;> exact Or.inr ⟨_, _, _, rfl⟩
  · intro c w o
    cases o with
    | ok d => exact Or.inl ⟨d, rfl⟩
    | error e =>
      simp only [update_webhook]
      split_ifs <;> exact Or.inr ⟨_, _, _, rfl⟩
  · intro c o
    cases o with
    | ok payload =>
      cases hd : exportDocuments payload with
      | ok docs =>
        exact Or.inl ⟨exportResult c docs, by simp [export_collection, hd]⟩
      | error m =>
        simp only [export_collection, hd, exportCatch]
        split_ifs <;> exact Or.inr ⟨_, _, _, rfl⟩
    | error e =>
      simp only [export_collection, exportCatch]
      split_ifs <;> exact Or.inr ⟨_, _, _, rfl⟩

/-- C3: the handlers named by the claim are total over every backing-call
outcome — a resolved call yields the formatted success response, and a
thrown value whose status matches no table row is converted to the
handler's generic fallback error code (CREATE_FAILED resp.
CREATE_WEBHOOK_FAILED) with the thrown message when present. -/
theorem handler_total_fallback :
    (∀ (c : String) (d : Json), create_document c (.ok d) = success d) ∧
    (∀ (c : String) (d : Json), create_webhook c (.ok d) = success d) ∧
    (∀ (c : String) (e : ThrownErr),
        e.status ≠ some 409 → e.status ≠ some 413 → e.status ≠ some 400 →
        create_document c (.error e) =
          error "CREATE_FAILED" (msgOr e "Failed to create document")
            ("Check that the collection name '" ++ c ++
             "' is valid and the data is a valid JSON object.")) ∧
    (∀ (c : String) (e : ThrownErr),
        e.status ≠ some 403 →
        create_webhook c (.error e) =
          error "CREATE_WEBHOOK_FAILED"
            (msgOr e ("Failed to create webhook for collection '" ++ c ++ "'."))
            "Verify the URL is reachable HTTPS and the event names are valid.") := by
  refine ⟨fun c d => rfl, fun c d => rfl, ?_, ?_⟩
  · intro c e h1 h2 h3
    simp only [create_document]
    rw [if_neg h1, if_neg h2, if_neg h3]
  · intro c e h1
    simp only [create_webhook]
    rw [if_neg h1]

/-- Witness for C3 at a concrete unmatched failure (status 500). -/
theorem handler_total_fallback_witness :
    create_document "users" (.error ⟨some 500, some "boom"⟩) =
      error "CREATE_FAILED" "boom"
        "Check that the collection name 'users' is valid and the data is a valid JSON object." ∧
    create_webhook "users" (.error ⟨some 500, some "boom"⟩) =
      error "CREATE_WEBHOOK_FAILED" "boom"
        "Verify the URL is reachable HTTPS and the event names are valid." := by
  constructor
  · exact handler_total_fallback.2.2.1 "users" ⟨some 500, some "boom"⟩
      (by decide) (by decide) (by decide)
  · exact handler_total_fallback.2.2.2 "users" ⟨some 500, some "boom"⟩ (by decide)

/-- C5 counterexample: a DELETE with a body supplied does NOT serialize
the body — the REST client's mutating-method list is exactly POST, PUT,
PATCH, so the claim's delete-with-body case fails. -/
theorem apiFetch_delete_body_dropped :
    (apiFetchRequest "https://api.jsondb.cloud/v1/users/u1" "k" "DELETE"
        (some (Json.obj []))).body = none ∧
    (webhookFetchRequest "https://api.jsondb.cloud/v1/users/_webhooks/w1" "k" "DELETE"
        (some (Json.obj []))).body = none := by
  constructor <;> simp [apiFetchRequest, webhookFetchRequest]

/-- C5 (amended): the REST client serializes the supplied body into the
outbound request exactly when the method is POST, PUT or PATCH; DELETE and
GET requests never carry a body, even when one is supplied. -/
theorem apiFetch_body_serialization :
    (∀ (url key method : String) (body : Option Json),
        ((apiFetchRequest url key method body).body = body ∨
         (apiFetchRequest url key method body).body = none) ∧
        ((apiFetchRequest url key method body).body.isSome = true ↔
          body.isSome = true ∧ method ∈ (["POST", "PUT", "PATCH"] : List String))) ∧
    (∀ (url key method : String) (body : Option Json),
        ((webhookFetchRequest url key method body).body = body ∨
         (webhookFetchRequest url key method body).body = none) ∧
        ((webhookFetchRequest url key method body).body.isSome = true ↔
          body.isSome = true ∧ method ∈ (["POST", "PUT", "PATCH"] : List String))) ∧
    (∀ (url key : String) (body : Option Json),
        (apiFetchRequest url key "DELETE" body).body = none ∧
        (apiFetchRequest url key "GET" body).body = none ∧
        (webhookFetchRequest url key "DELETE" body).body = none) := by
  refine ⟨?_, ?_, ?_⟩
  · intro url key method body
    constructor
    · simp only [apiFetchRequest]
      split_ifs <;> [exact Or.inl rfl; exact Or.inr rfl]
    · simp only [apiFetchRequest]
      split_ifs with h
      · simp [h.1, h.2]
      · simp only [Option.isSome_none, Bool.false_eq_true, false_iff]
        exact h
  · intro url key method body
    constructor
    · simp only [webhookFetchRequest]
      split_ifs <;> [exact Or.inl rfl; exact Or.inr rfl]
    · simp only [webhookFetchRequest]
      split_ifs with h
      · simp [h.1, h.2]
      · simp only [Option.isSome_none, Bool.false_eq_true, false_iff]
        exact h
  · intro url key body
    refine ⟨?_, ?_, ?_⟩ <;> simp [apiFetchRequest, webhookFetchRequest]

/-- A concrete environment holding only the first API key. -/
def envKeyOne : Env := fun k => if k = "JSONDB_API_KEY" then some "jdb_sk_live_one" else none

/-- A concrete environment holding only the second API key. -/
def envKeyTwo : Env := fun k => if k = "JSONDB_API_KEY" then some "jdb_sk_live_two" else none

/-- C6 counterexample: the REST-direct handlers re-read the process
environment on every invocation, so two invocations of the same handler
under environments differing only in `JSONDB_API_KEY` build outbound
requests with different credentials — the claimed invariance fails. -/
theorem resolveEnv_per_invocation_counterexample :
    (semantic_search_request envKeyOne "docs" "hello" none none none).authHeader =
      "Bearer jdb_sk_live_one" ∧
    (semantic_search_request envKeyTwo "docs" "hello" none none none).authHeader =
      "Bearer jdb_sk_live_two" ∧
    (semantic_search_request envKeyOne "docs" "hello" none none none).authHeader ≠
      (semantic_search_request envKeyTwo "docs" "hello" none none none).authHeader := by
  refine ⟨rfl, rfl, by decide⟩

/-- C6 (amended): within one invocation the credential triple is the pure
`resolveEnv` image of the environment at that invocation — the REST-direct
handlers (semantic search, embedding store, webhook update) stamp
`Bearer` + the freshly resolved key onto the outbound request and build its
URL from the freshly resolved base URL and project — while the SDK client
`main` constructs is resolved once from the startup environment. -/
theorem rest_handlers_resolve_env_each_call :
    (∀ (env : Env) (c q : String) (l t f : Option Json),
        (semantic_search_request env c q l t f).authHeader =
          "Bearer " ++ (resolveEnv env).apiKey) ∧
    (∀ (env : Env) (c q : String) (l t f : Option Json),
        (semantic_search_request env c q l t f).url =
          (resolveEnv env).baseUrl ++ "/" ++ (resolveEnv env).project ++ "/" ++ c ++
            "/_search") ∧
    (∀ (env : Env) (c : String) (d : List (String × Json)) (ef : String)
        (i : Option String),
        (store_with_embedding_request env c d ef i).authHeader =
          "Bearer " ++ (resolveEnv env).apiKey) ∧
    (∀ (env : Env) (c w : String) (u : Option String) (ev : Option (List String))
        (de st : Option String),
        (update_webhook_request env c w u ev de st).authHeader =
          "Bearer " ++ (resolveEnv env).apiKey) ∧
    (∀ (env : Env) (s : ServerStartup), mainStartup env = .started s →
        s.db.apiKey = (env "JSONDB_API_KEY").getD "" ∧
        s.db.project = jsOr (env "JSONDB_PROJECT") (jsOr (env "JSONDB_NAMESPACE") "v1") ∧
        s.db.baseUrl = jsOr (env "JSONDB_BASE_URL") "https://api.jsondb.cloud") := by
  refine ⟨fun env c q l t f => rfl, fun env c q l t f => rfl, ?_,
      fun env c w u ev de st => rfl, ?_⟩
  · intro env c d ef i
    simp only [store_with_embedding_request]
    split <;> rfl
  · intro env s h
    simp only [mainStartup] at h
    split_ifs at h
    · injection h with h2
      subst h2
      exact ⟨rfl, rfl, rfl⟩
    · injection h with h2
      subst h2
      exact ⟨rfl, rfl, rfl⟩

/-- Witness for C6 (amended) at a concrete started environment. -/
theorem rest_handlers_resolve_env_each_call_witness :
    (semantic_search_request envKeyOne "docs" "hello" none none none).authHeader =
      "Bearer " ++ (resolveEnv envKeyOne).apiKey ∧
    ∃ s, mainStartup envKeyOne = .started s ∧ s.db.apiKey = "jdb_sk_live_one" := by
  constructor
  · exact rest_handlers_resolve_env_each_call.1 envKeyOne "docs" "hello" none none none
  · refine ⟨{ db := { apiKey := "jdb_sk_live_one", project := "v1",
                      baseUrl := "https://api.jsondb.cloud" },
              transport := .stdio }, rfl, ?_⟩
    exact (rest_handlers_resolve_env_each_call.2.2.2.2 envKeyOne _ rfl).1

/-- C7 counterexample: with the empty string supplied as `id` (a supplied
id argument, but falsy in JavaScript), `store_with_embedding` issues a
POST to the collection path, not the claimed PUT to an id path. -/
theorem store_with_embedding_empty_id_counterexample :
    (store_with_embedding_request envKeyOne "docs" [] "text" (some "")).method = "POST" ∧
    ¬ (store_with_embedding_request envKeyOne "docs" [] "text" (some "")).method = "PUT" ∧
    (store_with_embedding_request envKeyOne "docs" [] "text" (some "")).url =
      "https://api.jsondb.cloud/v1/docs" := by
  refine ⟨rfl, by decide, rfl⟩

/-- C7 (amended): `store_with_embedding` sends the caller data merged with
the `$embed` marker naming the field to embed; a supplied non-empty id
selects PUT to the path ending in that id (replace semantics), while an
absent — or empty, hence falsy — id selects POST to the collection path
(create semantics). -/
theorem store_with_embedding_request_spec :
    (∀ (env : Env) (c : String) (d : List (String × Json)) (ef i : String),
        i ≠ "" →
        (store_with_embedding_request env c d ef (some i)).method = "PUT" ∧
        (store_with_embedding_request env c d ef (some i)).url =
          (resolveEnv env).baseUrl ++ "/" ++ (resolveEnv env).project ++ "/" ++ c ++
            "/" ++ i ∧
        (store_with_embedding_request env c d ef (some i)).body =
          some (Json.obj (jsSet d "$embed" (Json.str ef)))) ∧
    (∀ (env : Env) (c : String) (d : List (String × Json)) (ef : String),
        (store_with_embedding_request env c d ef none).method = "POST" ∧
        (store_with_embedding_request env c d ef none).url =
          (resolveEnv env).baseUrl ++ "/" ++ (resolveEnv env).project ++ "/" ++ c ∧
        (store_with_embedding_request env c d ef none).body =
          some (Json.obj (jsSet d "$embed" (Json.str ef)))) ∧
    (∀ (env : Env) (c : String) (d : List (String × Json)) (ef : String),
        (store_with_embedding_request env c d ef (some "")).method = "POST" ∧
        (store_with_embedding_request env c d ef (some "")).url =
          (resolveEnv env).baseUrl ++ "/" ++ (resolveEnv env).project ++ "/" ++ c) ∧
    (∀ (d : List (String × Json)) (ef : String),
        jsLookup (jsSet d "$embed" (Json.str ef)) "$embed" = some (Json.str ef)) ∧
    (∀ (d : List (String × Json)) (ef k : String), k ≠ "$embed" →
        jsLookup (jsSet d "$embed" (Json.str ef)) k = jsLookup d k) := by
  refine ⟨?_, ?_, ?_, ?_, ?_⟩
  · intro env c d ef i hi
    have ht : jsTruthy (some i) = true := by
      simp [jsTruthy, hi]
    simp only [store_with_embedding_request, ht, if_true]
    refine ⟨rfl, rfl, ?_⟩
    simp [apiFetchRequest]
  · intro env c d ef
    refine ⟨rfl, rfl, ?_⟩
    simp only [store_with_embedding_request, jsTruthy, Bool.false_eq_true, if_false]
    simp [apiFetchRequest]
  · intro env c d ef
    exact ⟨rfl, rfl⟩
  · intro d ef
    rw [jsLookup_jsSet]
    simp
  · intro d ef k hk
    rw [jsLookup_jsSet, if_neg hk]

/-- Witness for C7 (amended) at a concrete non-empty id and a field read. -/
theorem store_with_embedding_request_spec_witness :
    (store_with_embedding_request envKeyOne "docs" [] "text" (some "d1")).method =
      "PUT" ∧
    (store_with_embedding_request envKeyOne "docs" [] "text" (some "d1")).url =
      "https://api.jsondb.cloud/v1/docs/d1" ∧
    jsLookup (jsSet [] "$embed" (Json.str "text")) "note" = none := by
  obtain ⟨hm, hu, _⟩ :=
    store_with_embedding_request_spec.1 envKeyOne "docs" [] "text" "d1" (by decide)
  refine ⟨hm, ?_, ?_⟩
  · rw [hu]
    decide
  · have h := store_with_embedding_request_spec.2.2.2.2 [] "text" "note" (by decide)
    simp only [jsLookup] at h
    exact h

/-- C8 counterexample: a 2xx upstream payload of JSON `null` does not
yield an `\x7b collection, count, documents \x7d` success — reading `.data`
off `null` throws, and the handler answers with the EXPORT_FAILED error. -/
theorem export_null_payload_counterexample :
    (export_collection "docs" (.ok Json.null)).isError = true ∧
    errCode (export_collection "docs" (.ok Json.null)) = some "EXPORT_FAILED" := by
  exact ⟨rfl, rfl⟩

/-- C8 (amended): for a non-null 2xx payload whose `data` member, if any,
is an array or null, export normalizes as claimed — an array payload is
the document list, an object's array-valued `data` member is the document
list, an absent or null `data` member and every non-null primitive payload
give the empty list — and wraps `\x7b collection, count, documents \x7d`
with `count` the list's length; a JSON `null` payload instead produces the
EXPORT_FAILED error response, since the normalization dereferences null. -/
theorem export_normalization_spec :
    (∀ (c : String) (l : List Json),
        export_collection c (.ok (.arr l)) =
          success (Json.obj [("collection", Json.str c), ("count", Json.num l.length),
            ("documents", Json.arr l)])) ∧
    (∀ (c : String) (fs : List (String × Json)) (l : List Json),
        jsLookup fs "data" = some (.arr l) →
        export_collection c (.ok (.obj fs)) =
          success (Json.obj [("collection", Json.str c), ("count", Json.num l.length),
            ("documents", Json.arr l)])) ∧
    (∀ (c : String) (fs : List (String × Json)),
        jsLookup fs "data" = none →
        export_collection c (.ok (.obj fs)) =
          success (Json.obj [("collection", Json.str c), ("count", Json.num 0),
            ("documents", Json.arr [])])) ∧
    (∀ (c : String) (fs : List (String × Json)),
        jsLookup fs "data" = some .null →
        export_collection c (.ok (.obj fs)) =
          success (Json.obj [("collection", Json.str c), ("count", Json.num 0),
            ("documents", Json.arr [])])) ∧
    (∀ (c s : String),
        export_collection c (.ok (.str s)) =
          success (Json.obj [("collection", Json.str c), ("count", Json.num 0),
            ("documents", Json.arr [])])) ∧
    (∀ (c : String) (n : Int),
        export_collection c (.ok (.num n)) =
          success (Json.obj [("collection", Json.str c), ("count", Json.num 0),
            ("documents", Json.arr [])])) ∧
    (∀ (c : String) (b : Bool),
        export_collection c (.ok (.bool b)) =
          success (Json.obj [("collection", Json.str c), ("count", Json.num 0),
            ("documents", Json.arr [])])) ∧
    (∀ c : String,
        export_collection c (.ok .null) =
          error "EXPORT_FAILED" "Cannot read properties of null (reading 'data')"
            "Verify the collection name is correct. Use list_collections to see available collections.") := by
  refine ⟨fun c l => rfl, ?_, ?_, ?_, fun c s => rfl, fun c n => rfl, fun c b => rfl,
      fun c => rfl⟩
  · intro c fs l h
    simp [export_collection, exportDocuments, h, exportResult, jsLength]
  · intro c fs h
    simp [export_collection, exportDocuments, h, exportResult, jsLength]
  · intro c fs h
    simp [export_collection, exportDocuments, h, exportResult, jsLength]

/-- Witness for C8 (amended) at concrete object payloads. -/
theorem export_normalization_spec_witness :
    export_collection "docs" (.ok (Json.obj [("data", Json.arr [Json.num 7])])) =
      success (Json.obj [("collection", Json.str "docs"), ("count", Json.num 1),
        ("documents", Json.arr [Json.num 7])]) ∧
    export_collection "docs" (.ok (Json.obj [("total", Json.num 3)])) =
      success (Json.obj [("collection", Json.str "docs"), ("count", Json.num 0),
        ("documents", Json.arr [])]) ∧
    export_collection "docs" (.ok (Json.obj [("data", Json.null)])) =
      success (Json.obj [("collection", Json.str "docs"), ("count", Json.num 0),
        ("documents", Json.arr [])]) := by
  refine ⟨?_, ?_, ?_⟩
  · exact export_normalization_spec.2.1 "docs" [("data", Json.arr [Json.num 7])]
      [Json.num 7] rfl
  · exact export_normalization_spec.2.2.1 "docs" [("total", Json.num 3)] rfl
  · exact export_normalization_spec.2.2.2.1 "docs" [("data", Json.null)] rfl

/-- C9: with `JSONDB_API_KEY` absent from the environment, `main` exits
with status 1 — a non-zero code — printing the directive message, and no
server startup value (hence no listener or session) is ever produced. -/
theorem startup_requires_api_key :
    ∀ env : Env, env "JSONDB_API_KEY" = none →
      mainStartup env = .exited 1 apiKeyRequiredMessage ∧
      (∀ code msg, mainStartup env = .exited code msg → code ≠ 0) ∧
      (∀ s, mainStartup env ≠ .started s) := by
  intro env h
  have hfalse : jsTruthy (env "JSONDB_API_KEY") = false := by
    rw [h]; rfl
  have hmain : mainStartup env = .exited 1 apiKeyRequiredMessage := by
    simp only [mainStartup, hfalse, if_true]
  refine ⟨hmain, ?_, ?_⟩
  · intro code msg he
    rw [hmain] at he
    injection he with h1 h2
    omega
  · intro s hs
    rw [hmain] at hs
    exact StartupOutcome.noConfusion hs

/-- Witness for C9 at the empty environment. -/
theorem startup_requires_api_key_witness :
    mainStartup (fun _ => none) = .exited 1 apiKeyRequiredMessage ∧
    (∀ s, mainStartup (fun _ => none) ≠ .started s) := by
  have h := startup_requires_api_key (fun _ => none) rfl
  exact ⟨h.1, h.2.2⟩

/-- C10: `update_webhook` with only collection and webhookId issues a PUT
to the webhook path whose serialized JSON body is the empty object (the
call is built, not skipped); a 2xx upstream response yields the success
response; and in general the PUT body holds exactly the supplied optional
fields — url, events, description, status in source order — and no others. -/
theorem update_webhook_put_exact_fields :
    (∀ (env : Env) (c w : String),
        (update_webhook_request env c w none none none none).method = "PUT" ∧
        (update_webhook_request env c w none none none none).body =
          some (Json.obj []) ∧
        (update_webhook_request env c w none none none none).url =
          (resolveEnv env).baseUrl ++ "/" ++ (resolveEnv env).project ++ "/" ++ c ++
            "/_webhooks/" ++ w) ∧
    (∀ (c w : String) (d : Json), update_webhook c w (.ok d) = success d) ∧
    (∀ (u : Option String) (e : Option (List String)) (de st : Option String),
        jsKeys (update_webhook_fields u e de st) =
          (if u.isSome then ["url"] else []) ++
          (if e.isSome then ["events"] else []) ++
          (if de.isSome then ["description"] else []) ++
          (if st.isSome then ["status"] else [])) ∧
    (∀ (u : Option String) (e : Option (List String)) (de st : Option String),
        jsLookup (update_webhook_fields u e de st) "url" = u.map Json.str ∧
        jsLookup (update_webhook_fields u e de st) "events" =
          e.map (fun es => Json.arr (es.map Json.str)) ∧
        jsLookup (update_webhook_fields u e de st) "description" = de.map Json.str ∧
        jsLookup (update_webhook_fields u e de st) "status" = st.map Json.str) ∧
    (∀ (env : Env) (c w : String) (u : Option String) (e : Option (List String))
        (de st : Option String),
        (update_webhook_request env c w u e de st).method = "PUT" ∧
        (update_webhook_request env c w u e de st).body =
          some (Json.obj (update_webhook_fields u e de st))) := by
  refine ⟨?_, fun c w d => rfl, ?_, ?_, ?_⟩
  · intro env c w
    exact ⟨rfl, rfl, rfl⟩
  · intro u e de st
    rcases u with _ | u <;> rcases e with _ | e <;> rcases de with _ | de <;>
      rcases st with _ | st <;>
      simp [update_webhook_fields, jsSet, jsKeys]
  · intro u e de st
    rcases u with _ | u <;> rcases e with _ | e <;> rcases de with _ | de <;>
      rcases st with _ | st <;>
      refine ⟨?_, ?_, ?_, ?_⟩ <;>
      simp [update_webhook_fields, jsSet, jsLookup]
  · intro env c w u e de st
    refine ⟨rfl, ?_⟩
    simp [update_webhook_request, webhookFetchRequest]

end JsondbMcp
